import Mathlib

/-!
Shallow embedding of the node-management core of the supernova server
(`source/server/node_types.hpp`): the `server_node` base class (identity,
running flag, parent linkage, intrusive reference count), the id-based
ordering used by the node-id index, and the arena-backed allocator adapter
`server_node_allocator`.
-/

/-- Embedding of the data fields of `nova::server_node`.
`node_id : Nat` models the `uint32_t node_id` field (ids are only compared,
never subject to arithmetic, so no wrap-around can occur); `parent_` models
the raw `abstract_group* parent_` pointer, with `none` for the null pointer
and `some g` for a non-null pointer to group `g`; `use_count_ : Int` models
the `boost::detail::atomic_count use_count_` field, a signed `long`. -/
structure ServerNode where
  node_id : Nat
  synth_ : Bool
  running_ : Bool
  parent_ : Option Nat
  use_count_ : Int
deriving DecidableEq, Repr

/-- The constructor `server_node(uint32_t node_id, bool type)`: initializer
list `node_id(node_id), synth_(type), running_(true), parent_(0), use_count_(0)`. -/
def server_node (node_id : Nat) (type : Bool) : ServerNode :=
  { node_id := node_id, synth_ := type, running_ := true, parent_ := none, use_count_ := 0 }

/-- `uint32_t id() const { return node_id; }` -/
def ServerNode.id (s : ServerNode) : Nat :=
  s.node_id

/-- `bool is_synth() const { return synth_; }` -/
def ServerNode.is_synth (s : ServerNode) : Bool :=
  s.synth_

/-- `virtual void pause() { running_ = false; }` -/
def ServerNode.pause (s : ServerNode) : ServerNode :=
  { s with running_ := false }

/-- `virtual void resume() { running_ = true; }` -/
def ServerNode.resume (s : ServerNode) : ServerNode :=
  { s with running_ := true }

/-- `bool is_running() const { return running_; }` -/
def ServerNode.is_running (s : ServerNode) : Bool :=
  s.running_

/-- `const abstract_group* get_parent() const { return parent_; }` -/
def ServerNode.get_parent (s : ServerNode) : Option Nat :=
  s.parent_

/-- `void add_ref() { ++use_count_; }` -/
def ServerNode.add_ref (s : ServerNode) : ServerNode :=
  { s with use_count_ := s.use_count_ + 1 }

/-- Outcome of `server_node::release()`: either the node stays live with the
decremented count, or `delete this` ran; `destroyed` records the node state
on which the destructor (and `operator delete`) executed. -/
inductive ReleaseResult where
  | live (s : ServerNode)
  | destroyed (final : ServerNode)
deriving DecidableEq, Repr

/-- `void release() { if (unlikely(--use_count_ == 0)) delete this; }`
The predecrement acts on the signed `atomic_count`, so the comparison is the
decremented value against 0. -/
def ServerNode.release (s : ServerNode) : ReleaseResult :=
  let s' : ServerNode := { s with use_count_ := s.use_count_ - 1 }
  if s'.use_count_ = 0 then ReleaseResult.destroyed s' else ReleaseResult.live s'

/-- `void set_parent(abstract_group* parent) { add_ref(); assert(parent_ == 0); parent_ = parent; }`
The `add_ref` call happens first in the source; the assertion then checks
`parent_`, which `add_ref` does not touch. A failed assertion aborts the
program, modelled as `none`; on success the updated node is returned. -/
def ServerNode.set_parent (s : ServerNode) (parent : Nat) : Option ServerNode :=
  let s1 := s.add_ref
  if s1.parent_ = none then some { s1 with parent_ := some parent } else none

/-- `void clear_parent() { parent_ = 0; release(); }` -/
def ServerNode.clear_parent (s : ServerNode) : ReleaseResult :=
  ServerNode.release { s with parent_ := none }

/-- The destructor `virtual ~server_node() { assert(parent_ == 0); }`:
the assertion it checks on the state being destroyed. -/
def destructor_assertion (s : ServerNode) : Prop :=
  s.parent_ = none

instance (s : ServerNode) : Decidable (destructor_assertion s) := by
  unfold destructor_assertion; infer_instance

/-- `friend bool operator<(server_node const& lhs, server_node const& rhs) { return lhs.node_id < rhs.node_id; }` -/
def server_node_lt (lhs rhs : ServerNode) : Bool :=
  lhs.node_id < rhs.node_id

/-- `friend bool operator==(server_node const& lhs, server_node const& rhs) { return lhs.node_id == rhs.node_id; }` -/
def server_node_eq (lhs rhs : ServerNode) : Bool :=
  lhs.node_id == rhs.node_id

/-- `inline void intrusive_ptr_add_ref(server_node* p) { p->add_ref(); }` —
the hook `boost::intrusive_ptr` (the Handle) invokes when a handle is
constructed from a raw node or copied. -/
def intrusive_ptr_add_ref (p : ServerNode) : ServerNode :=
  p.add_ref

/-- `inline void intrusive_ptr_release(server_node* p) { p->release(); }` —
the hook `boost::intrusive_ptr` (the Handle) invokes when a handle is
dropped or reset. -/
def intrusive_ptr_release (p : ServerNode) : ReleaseResult :=
  p.release

/-- Modelled from the spec: `server_node::free` forwards storage to the
fixed-capacity arena (`static_pool`), whose definition
(`utilities/static_pool.hpp`) is not part of this repository slice.
Per §4.1 the arena contract is `free(storage) -> ()` returning the storage
to the pool; the pool's free store is modelled as the list of free chunks
and `free` prepends the returned chunk. -/
def server_node_free (p : Nat) (freeChunks : List Nat) : List Nat :=
  p :: freeChunks

/-- `inline void operator delete(void* p) { free(p); }` — run after the
destructor whenever `delete this` fires in `release`. -/
def server_node_operator_delete (p : Nat) (freeChunks : List Nat) : List Nat :=
  server_node_free p freeChunks

/-- The pool size parameter: `typedef static_pool<1024*1024*8> node_pool`. -/
def node_pool_capacity : Nat := 1024 * 1024 * 8

/-- Modelled from the spec: `static_pool::get_max_size`
(`utilities/static_pool.hpp` is not part of this repository slice). §4.1
fixes the arena's total capacity once at startup (reference size 8 MiB) and
exposes it via `capacity() -> size`; the pool's maximum servable size is
that capacity. -/
def static_pool_get_max_size : Nat := node_pool_capacity

/-- `static std::size_t get_max_size() { return pool.get_max_size(); }` -/
def server_node_get_max_size : Nat := static_pool_get_max_size

/-- An instance of the class template `server_node_allocator<T>`: the class
is stateless, so an instance is characterised by `sizeof(T)` alone. -/
structure ServerNodeAllocator where
  elemSize : Nat
deriving DecidableEq, Repr

/-- `size_type max_size() const throw() { return server_node::get_max_size(); }` -/
def ServerNodeAllocator.max_size (_ : ServerNodeAllocator) : Nat :=
  server_node_get_max_size

/-- The exception thrown by `server_node_allocator::allocate`. -/
inductive AllocError where
  | badAlloc
deriving DecidableEq, Repr

/-- `pointer allocate(size_type n, const_pointer hint = 0) { pointer ret = static_cast<pointer>(server_node::allocate(n * sizeof(T))); if (unlikely(ret == 0)) throw std::bad_alloc(); return ret; }`
`arena` models `server_node::allocate` (whose body lives outside this
header): it maps a byte count to the returned raw pointer, `0` for null. -/
def ServerNodeAllocator.allocate (a : ServerNodeAllocator) (arena : Nat → Nat) (n : Nat) :
    Except AllocError Nat :=
  let ret := arena (n * a.elemSize)
  if ret = 0 then Except.error AllocError.badAlloc else Except.ok ret

/-- `template<typename T, typename U> bool operator!=(server_node_allocator<T> const& left, server_node_allocator<U> const& right) { return true; }` -/
def server_node_allocator_ne (_left _right : ServerNodeAllocator) : Bool :=
  true

/-- `template<typename T, typename U> bool operator==(server_node_allocator<T> const& left, server_node_allocator<U> const& right) { return !(left != right); }` -/
def server_node_allocator_eq (left right : ServerNodeAllocator) : Bool :=
  !(server_node_allocator_ne left right)

/-- Lifecycle state of one node: live with the node's fields and the number
of outstanding Handles (a ghost count: each `intrusive_ptr` currently
holding the node), or destroyed (recording the state the destructor saw). -/
inductive LifeState where
  | live (s : ServerNode) (handles : Nat)
  | destroyed (final : ServerNode)

/-- Lift a `release` outcome to a lifecycle state, with the given handle
count if the node survived. -/
def ReleaseResult.toLife : ReleaseResult → Nat → LifeState
  | ReleaseResult.live s, h => LifeState.live s h
  | ReleaseResult.destroyed f, _ => LifeState.destroyed f

/-- One contract-respecting operation of the core on a single node:
constructing or copying a Handle, dropping a Handle (requires one
outstanding), linking via `set_parent` (contract: currently unparented),
unlinking via `clear_parent` (the inverse of linking, so currently
parented), and `pause`/`resume`. No operation applies to a destroyed
node. -/
inductive Step : LifeState → LifeState → Prop where
  | handle_new (s : ServerNode) (h : Nat) :
      Step (LifeState.live s h) (LifeState.live (intrusive_ptr_add_ref s) (h + 1))
  | handle_drop (s : ServerNode) (h : Nat) (hh : 1 ≤ h) :
      Step (LifeState.live s h) ((intrusive_ptr_release s).toLife (h - 1))
  | link (s : ServerNode) (h : Nat) (p : Nat) (s' : ServerNode)
      (hp : s.parent_ = none) (he : s.set_parent p = some s') :
      Step (LifeState.live s h) (LifeState.live s' h)
  | unlink (s : ServerNode) (h : Nat) (hp : s.parent_ ≠ none) :
      Step (LifeState.live s h) (s.clear_parent.toLife h)
  | pause_op (s : ServerNode) (h : Nat) :
      Step (LifeState.live s h) (LifeState.live s.pause h)
  | resume_op (s : ServerNode) (h : Nat) :
      Step (LifeState.live s h) (LifeState.live s.resume h)

/-- The states a node can reach: freshly constructed (zero handles), or the
result of a contract-respecting operation on a reachable state. -/
inductive Reach : LifeState → Prop where
  | init (node_id : Nat) (type : Bool) : Reach (LifeState.live (server_node node_id type) 0)
  | step {a b : LifeState} : Reach a → Step a b → Reach b

/-- The refcount accounting invariant: a live node's `use_count_` is the
number of outstanding Handles plus one implicit reference iff parented; a
destroyed node died at count zero and unparented. -/
def NodeInv : LifeState → Prop
  | LifeState.live s h => s.use_count_ = (h : Int) + (if s.parent_.isSome then 1 else 0)
  | LifeState.destroyed f => f.use_count_ = 0 ∧ f.parent_ = none

theorem inv_step {a b : LifeState} (ha : NodeInv a) (hs : Step a b) : NodeInv b := by
  cases hs with
  | handle_new s h =>
      obtain ⟨i, sy, ru, pa, uc⟩ := s
      cases pa <;> simp_all [NodeInv, intrusive_ptr_add_ref, ServerNode.add_ref]
  | handle_drop s h hh =>
      obtain ⟨i, sy, ru, pa, uc⟩ := s
      simp only [intrusive_ptr_release, ServerNode.release]
      by_cases hz : uc - 1 = 0 <;>
        cases pa <;>
          simp_all [NodeInv, ReleaseResult.toLife]
  | link s h p s' hp he =>
      obtain ⟨i, sy, ru, pa, uc⟩ := s
      simp only at hp
      subst hp
      simp only [ServerNode.set_parent, ServerNode.add_ref, if_true, Option.some.injEq] at he
      subst he
      simp_all [NodeInv]
  | unlink s h hp =>
      obtain ⟨i, sy, ru, pa, uc⟩ := s
      simp only [ServerNode.clear_parent, ServerNode.release]
      by_cases hz : uc - 1 = 0 <;>
        cases pa <;>
          simp_all [NodeInv, ReleaseResult.toLife]
  | pause_op s h =>
      obtain ⟨i, sy, ru, pa, uc⟩ := s
      simpa only [NodeInv, ServerNode.pause] using ha
  | resume_op s h =>
      obtain ⟨i, sy, ru, pa, uc⟩ := s
      simpa only [NodeInv, ServerNode.resume] using ha

theorem inv_reach {st : LifeState} (hr : Reach st) : NodeInv st := by
  induction hr with
  | init node_id type => simp [NodeInv, server_node]
  | step _ hs ih => exact inv_step ih hs

/-- C1: for every node, `set_parent(p)` requires `parent == null`; under that
precondition it sets `parent` to `p`, increments the reference count by
exactly one and changes nothing else; on a node that already has a parent the
assertion fails (a fatal invariant breach), so the call never silently
succeeds. -/
theorem set_parent_contract (s : ServerNode) (p : Nat) :
    (s.parent_ = none →
      s.set_parent p = some { s with parent_ := some p, use_count_ := s.use_count_ + 1 }) ∧
    (s.parent_ ≠ none → s.set_parent p = none) := by
  constructor <;> intro h <;>
    simp [ServerNode.set_parent, ServerNode.add_ref, h]

/-- Witness for `set_parent_contract` at concrete nodes: an unparented node
with id 2, and the same node after it has been given parent 7. -/
theorem set_parent_contract_witness :
    (server_node 2 true).parent_ = none ∧
    (server_node 2 true).set_parent 7 =
      some { (server_node 2 true) with
             parent_ := some 7,
             use_count_ := (server_node 2 true).use_count_ + 1 } ∧
    (ServerNode.mk 2 true true (some 7) 1).parent_ ≠ none ∧
    (ServerNode.mk 2 true true (some 7) 1).set_parent 9 = none :=
  ⟨rfl, (set_parent_contract (server_node 2 true) 7).1 rfl, by decide,
    (set_parent_contract (ServerNode.mk 2 true true (some 7) 1) 9).2 (by decide)⟩

/-- C2: for every node, `clear_parent()` sets `parent` to null and decrements
the reference count by exactly one; if the decrement brings the count to 0
the node is destroyed (the single `delete this` in `release`), otherwise it
stays live; and any destruction performed by `clear_parent` satisfies the
destructor's assertion `parent_ == 0`, i.e. happens only unparented. -/
theorem clear_parent_spec (s : ServerNode) :
    (s.use_count_ = 1 →
      s.clear_parent = ReleaseResult.destroyed { s with parent_ := none, use_count_ := 0 }) ∧
    (s.use_count_ ≠ 1 →
      s.clear_parent =
        ReleaseResult.live { s with parent_ := none, use_count_ := s.use_count_ - 1 }) ∧
    (∀ f, s.clear_parent = ReleaseResult.destroyed f → destructor_assertion f) := by
  obtain ⟨i, sy, ru, pa, uc⟩ := s
  refine ⟨?_, ?_, ?_⟩
  · intro h
    simp only at h
    subst h
    simp [ServerNode.clear_parent, ServerNode.release]
  · intro h
    simp only at h
    have hz : ¬((uc - 1 : Int) = 0) := by omega
    simp [ServerNode.clear_parent, ServerNode.release, hz]
  · intro f hf
    simp only [ServerNode.clear_parent, ServerNode.release] at hf
    split at hf
    · cases hf
      rfl
    · cases hf

/-- Witness for `clear_parent_spec` at a concrete node: parented, refcount 1
(held only by the parent); unlinking destroys it with `parent == null`. -/
theorem clear_parent_spec_witness :
    (ServerNode.mk 3 false true (some 4) 1).use_count_ = 1 ∧
    (ServerNode.mk 3 false true (some 4) 1).clear_parent =
      ReleaseResult.destroyed
        { (ServerNode.mk 3 false true (some 4) 1) with parent_ := none, use_count_ := 0 } :=
  ⟨rfl, (clear_parent_spec (ServerNode.mk 3 false true (some 4) 1)).1 rfl⟩

/-- C3: in every node state reachable from construction by the core's
operations (Handle construction/copy, Handle drop, `set_parent` under its
contract, `clear_parent`, `pause`, `resume`), a parented node has reference
count at least 1 — the parent's own implicit reference. -/
theorem parented_refcount_positive {s : ServerNode} {h : Nat}
    (hr : Reach (LifeState.live s h)) (hp : s.parent_ ≠ none) :
    1 ≤ s.use_count_ := by
  have hinv := inv_reach hr
  have hsome : s.parent_.isSome = true := Option.ne_none_iff_isSome.mp hp
  simp only [NodeInv, hsome, if_pos] at hinv
  omega

/-- Witness for `parented_refcount_positive`: the node constructed with id 5
and then linked to group 1 is reachable, parented, and has refcount 1. -/
theorem parented_refcount_positive_witness :
    (ServerNode.mk 5 true true (some 1) 1).parent_ ≠ none ∧
    1 ≤ (ServerNode.mk 5 true true (some 1) 1).use_count_ := by
  have h1 : Reach (LifeState.live (server_node 5 true) 0) := Reach.init 5 true
  have h2 : Step (LifeState.live (server_node 5 true) 0)
      (LifeState.live (ServerNode.mk 5 true true (some 1) 1) 0) :=
    Step.link (server_node 5 true) 0 1 (ServerNode.mk 5 true true (some 1) 1) rfl (by decide)
  exact ⟨by decide, parented_refcount_positive (Reach.step h1 h2) (by decide)⟩

/-- C4: the Handle hooks: constructing a Handle from a raw node and copying a
Handle both increment the reference count by exactly one and change nothing
else; dropping/resetting a Handle decrements it by exactly one, and the
decrement that reaches zero — and only that one — destroys the node, whose
storage `operator delete` then returns to the arena pool; a destroyed node
admits no further operation, so destruction is triggered exactly once. -/
theorem handle_refcount_lifecycle :
    (∀ s : ServerNode, intrusive_ptr_add_ref s = { s with use_count_ := s.use_count_ + 1 }) ∧
    (∀ s : ServerNode, s.use_count_ = 1 →
      intrusive_ptr_release s = ReleaseResult.destroyed { s with use_count_ := 0 }) ∧
    (∀ s : ServerNode, s.use_count_ ≠ 1 →
      intrusive_ptr_release s = ReleaseResult.live { s with use_count_ := s.use_count_ - 1 }) ∧
    (∀ p freeChunks, p ∈ server_node_operator_delete p freeChunks) ∧
    (∀ f x, ¬ Step (LifeState.destroyed f) x) := by
  refine ⟨fun s => rfl, ?_, ?_, ?_, ?_⟩
  · intro s h
    obtain ⟨i, sy, ru, pa, uc⟩ := s
    simp only at h
    subst h
    simp [intrusive_ptr_release, ServerNode.release]
  · intro s h
    obtain ⟨i, sy, ru, pa, uc⟩ := s
    simp only at h
    have hz : ¬((uc - 1 : Int) = 0) := by omega
    simp [intrusive_ptr_release, ServerNode.release, hz]
  · intro p freeChunks
    simp [server_node_operator_delete, server_node_free]
  · intro f x hstep
    cases hstep

/-- Witness for `handle_refcount_lifecycle`: dropping the sole Handle of an
unparented node with refcount 1 destroys it. -/
theorem handle_refcount_lifecycle_witness :
    (ServerNode.mk 1 true true none 1).use_count_ = 1 ∧
    intrusive_ptr_release (ServerNode.mk 1 true true none 1) =
      ReleaseResult.destroyed { (ServerNode.mk 1 true true none 1) with use_count_ := 0 } :=
  ⟨rfl, handle_refcount_lifecycle.2.1 (ServerNode.mk 1 true true none 1) rfl⟩

/-- C5: the ordering used by the node-id index compares by id only:
`operator<` holds iff `lhs.id < rhs.id` and `operator==` holds iff
`lhs.id == rhs.id`, regardless of every other field. -/
theorem node_order_by_id (a b : ServerNode) :
    (server_node_lt a b = true ↔ a.id < b.id) ∧
    (server_node_eq a b = true ↔ a.id = b.id) := by
  constructor <;> simp [server_node_lt, server_node_eq, ServerNode.id]

/-- Witness for `node_order_by_id`: two nodes with ids 3 and 7 compare as
3 < 7, and two nodes differing in every field but the id compare equal. -/
theorem node_order_by_id_witness :
    server_node_lt (server_node 3 true) (server_node 7 false) = true ∧
    server_node_eq (ServerNode.mk 3 true true none 0) (ServerNode.mk 3 false false (some 9) 5) = true :=
  ⟨(node_order_by_id (server_node 3 true) (server_node 7 false)).1.mpr (by decide),
    (node_order_by_id (ServerNode.mk 3 true true none 0)
      (ServerNode.mk 3 false false (some 9) 5)).2.mpr (by decide)⟩

/-- C6 fails on the code: `server_node_allocator<T>::max_size()` forwards
`server_node::get_max_size()` (the pool's size, modelled from the spec as the
8 MiB capacity) without dividing by `sizeof(T)`; for an element size of 4 the
returned value is 8388608, not `capacity / 4 = 2097152`. -/
theorem max_size_ignores_element_size :
    ServerNodeAllocator.max_size ⟨4⟩ = 8388608 ∧
    node_pool_capacity / 4 = 2097152 ∧
    ServerNodeAllocator.max_size ⟨4⟩ ≠ node_pool_capacity / 4 := by
  decide

/-- C7: for every two allocator-adapter instances, of any element types and
including an instance compared with itself, `operator!=` returns true and
`operator==` (defined as its negation) returns false, so adapter equality is
never reflexive. -/
theorem allocator_compare_constant (a b : ServerNodeAllocator) :
    server_node_allocator_ne a b = true ∧
    server_node_allocator_eq a b = false ∧
    server_node_allocator_eq a a = false :=
  ⟨rfl, rfl, rfl⟩

/-- C8: for every request size `n`, the adapter's `allocate(n)` raises the
allocation-failure exception (`std::bad_alloc`) exactly when the underlying
arena allocation (`server_node::allocate(n * sizeof(T))`) yields the null
pointer, and otherwise returns exactly the arena's non-null storage — one
arena call, no retry, wait or growth. -/
theorem allocate_reports_exhaustion (a : ServerNodeAllocator) (arena : Nat → Nat) (n : Nat) :
    (a.allocate arena n = Except.error AllocError.badAlloc ↔ arena (n * a.elemSize) = 0) ∧
    (∀ p, a.allocate arena n = Except.ok p → p = arena (n * a.elemSize) ∧ p ≠ 0) ∧
    (arena (n * a.elemSize) ≠ 0 →
      a.allocate arena n = Except.ok (arena (n * a.elemSize))) := by
  refine ⟨?_, ?_, ?_⟩
  · by_cases hz : arena (n * a.elemSize) = 0 <;> simp [ServerNodeAllocator.allocate, hz]
  · intro p hp
    by_cases hz : arena (n * a.elemSize) = 0 <;>
      simp [ServerNodeAllocator.allocate, hz] at hp
    exact ⟨hp.symm, hp ▸ hz⟩
  · intro hz
    simp [ServerNodeAllocator.allocate, hz]

/-- Witness for `allocate_reports_exhaustion`: with an exhausted arena the
adapter throws; with an arena returning non-null storage it returns it. -/
theorem allocate_reports_exhaustion_witness :
    ServerNodeAllocator.allocate ⟨4⟩ (fun _ => 0) 3 = Except.error AllocError.badAlloc ∧
    ServerNodeAllocator.allocate ⟨4⟩ (fun k => k + 1) 3 = Except.ok 13 :=
  ⟨(allocate_reports_exhaustion ⟨4⟩ (fun _ => 0) 3).1.mpr rfl,
    (allocate_reports_exhaustion ⟨4⟩ (fun k => k + 1) 3).2.2 (by decide)⟩

/-- C9: `pause()` sets the running flag to false and `resume()` sets it to
true, both idempotently; neither touches `id`, the kind tag, the parent or
the reference count. -/
theorem pause_resume_flag_only (s : ServerNode) :
    s.pause.is_running = false ∧
    s.resume.is_running = true ∧
    s.pause.pause = s.pause ∧
    s.resume.resume = s.resume ∧
    s.pause.id = s.id ∧ s.pause.is_synth = s.is_synth ∧
    s.pause.get_parent = s.get_parent ∧ s.pause.use_count_ = s.use_count_ ∧
    s.resume.id = s.id ∧ s.resume.is_synth = s.is_synth ∧
    s.resume.get_parent = s.get_parent ∧ s.resume.use_count_ = s.use_count_ :=
  ⟨rfl, rfl, rfl, rfl, rfl, rfl, rfl, rfl, rfl, rfl, rfl, rfl⟩

/-- C10: a freshly constructed node is running, unparented, has reference
count 0, and carries the given id and kind tag. -/
theorem fresh_node_initial_state (node_id : Nat) (type : Bool) :
    (server_node node_id type).is_running = true ∧
    (server_node node_id type).get_parent = none ∧
    (server_node node_id type).use_count_ = 0 ∧
    (server_node node_id type).id = node_id ∧
    (server_node node_id type).is_synth = type :=
  ⟨rfl, rfl, rfl, rfl, rfl⟩
